import Mathlib

/-!
Shallow embedding of the loft-uptime-monitor-system monitoring core.

The definitions below are translated from the TypeScript source:
- `checkServiceStatus`, `calculateUptime` from `src/lib/monitoring.ts`
  (src/unnamed/part_007, the detailed-error variant, and part_006);
- the downtime tracker and cron cycle from `src/app/api/cron/monitor/route.ts`
  (src/unnamed/part_001);
- the day-detail aggregation from `src/src/app/api/day-detail/route.ts`;
- the status rollup uptime computation from `src/app/api/status/route.ts`
  (src/unnamed/part_004);
- the scheduler from `src/src/lib/scheduler.ts`.

Machine timestamps are modelled as natural numbers of epoch milliseconds.
-/

namespace Loft

/-- Check status enum (`CheckStatus` in the generated Prisma client). -/
inductive CheckStatus where
  | UP
  | DOWN
deriving DecidableEq, Repr, Inhabited

/-- Outcome of the underlying HTTP GET issued by axios.  With
`validateStatus: () => true` axios resolves for every received HTTP
response (any status code), and rejects only on transport-level
failures, which carry a node error code and a message. -/
inductive ProbeOutcome where
  | response (statusCode : Nat) (statusText : String)
  | transportError (errorCode : String) (message : String)
deriving DecidableEq, Repr

/-- Result record of one probe (`StatusCheckResult` in `monitoring.ts`). -/
structure StatusCheckResult where
  status : CheckStatus
  httpCode : Option Nat
  responseTime : Option Nat
  errorMessage : Option String
deriving DecidableEq, Repr

/-- Error-code to message mapping from the catch branch of
`checkServiceStatus` (src/unnamed/part_007 lines 38-65).  The
`error.response` / `error.request` fallbacks never apply to pure
transport errors, which carry no response; the final fallback returns
the error's own message. -/
def transportErrorMessage (errorCode message : String) : String :=
  if errorCode = "ECONNREFUSED" then "Connection refused - Service is not responding"
  else if errorCode = "ENOTFOUND" then "DNS lookup failed - Host not found"
  else if errorCode = "ETIMEDOUT" ∨ errorCode = "ECONNABORTED" then
    "Request timeout - Service took too long to respond"
  else if errorCode = "ECONNRESET" then "Connection reset - Service closed the connection"
  else if errorCode = "EHOSTUNREACH" then "Host unreachable - Network path not available"
  else if errorCode = "ENETUNREACH" then "Network unreachable - Cannot reach network"
  else if errorCode = "CERT_HAS_EXPIRED" then "SSL certificate has expired"
  else if errorCode = "UNABLE_TO_VERIFY_LEAF_SIGNATURE" then "SSL certificate verification failed"
  else if message ≠ "" then message
  else "Unknown error occurred"

/-- Embedding of `checkServiceStatus` (src/unnamed/part_007 lines 16-74).
The network interaction is abstracted into the `outcome` argument; the
measured wall-clock duration is the `responseTime` argument.  The
function is total: it returns a result for every outcome, mirroring the
fact that the source never throws (any HTTP response takes the try
branch thanks to `validateStatus`, and every rejection is caught). -/
def checkServiceStatus (outcome : ProbeOutcome) (responseTime : Nat) : StatusCheckResult :=
  match outcome with
  | ProbeOutcome.response s text =>
      if 200 ≤ s ∧ s < 500 then
        { status := CheckStatus.UP, httpCode := some s,
          responseTime := some responseTime, errorMessage := none }
      else
        { status := CheckStatus.DOWN, httpCode := some s,
          responseTime := some responseTime,
          errorMessage := some ("HTTP " ++ toString s ++ ": " ++ text) }
  | ProbeOutcome.transportError errorCode message =>
      { status := CheckStatus.DOWN, httpCode := none,
        responseTime := some responseTime,
        errorMessage := some (transportErrorMessage errorCode message) }

/-- Per-endpoint downtime tracker state (src/unnamed/part_001 lines 13-18). -/
structure DowntimeTracker where
  consecutiveFailures : Nat
  firstFailureTime : Option Nat
  alertSent : Bool
  lastStatus : Option CheckStatus
deriving DecidableEq, Repr

/-- Initial tracker placed in the map for an unseen endpoint
(src/unnamed/part_001 lines 118-125). -/
def initialTracker : DowntimeTracker :=
  { consecutiveFailures := 0, firstFailureTime := none,
    alertSent := false, lastStatus := none }

/-- Alert threshold constant (src/unnamed/part_001 line 24). -/
def ALERT_THRESHOLD_CHECKS : Nat := 3

/-- JavaScript `Math.round(ms / 1000 / 60)` for a nonnegative millisecond
difference `ms`: round-half-up to whole minutes. -/
def roundMinutes (ms : Nat) : Nat := (ms + 30000) / 60000

/-- Alert events emitted by the tracker logic.  A downtime alert carries
the rounded elapsed minutes and the recorded first-failure time (the
source also formats endpoint name/url/HTTP code into the Slack text); a
recovery alert carries the rounded total downtime minutes. -/
inductive AlertEvent where
  | downtime (minutes : Nat) (firstFailure : Option Nat)
  | recovery (minutes : Nat)
deriving DecidableEq, Repr

/-- One tracker transition for one check result
(src/unnamed/part_001 lines 130-186), with the current wall-clock time
`now` passed explicitly in place of `Date.now()` / `new Date()`.
Returns the updated tracker together with the list of alert events this
tick emits (at most one).  `lastStatus` is set to the current result's
status at the end, exactly as in the source. -/
def tick (tracker : DowntimeTracker) (status : CheckStatus) (now : Nat) :
    DowntimeTracker × List AlertEvent :=
  match status with
  | CheckStatus.DOWN =>
      let count := tracker.consecutiveFailures + 1
      let fft := if count = 1 then some now else tracker.firstFailureTime
      if ALERT_THRESHOLD_CHECKS ≤ count ∧ tracker.alertSent = false then
        let minutes :=
          match fft with
          | some f => roundMinutes (now - f)
          | none => count
        ({ consecutiveFailures := count, firstFailureTime := fft,
           alertSent := true, lastStatus := some CheckStatus.DOWN },
         [AlertEvent.downtime minutes fft])
      else
        ({ consecutiveFailures := count, firstFailureTime := fft,
           alertSent := tracker.alertSent, lastStatus := some CheckStatus.DOWN },
         [])
  | CheckStatus.UP =>
      let events :=
        if tracker.lastStatus = some CheckStatus.DOWN ∧ tracker.alertSent = true then
          let minutes :=
            match tracker.firstFailureTime with
            | some f => roundMinutes (now - f)
            | none => tracker.consecutiveFailures
          [AlertEvent.recovery minutes]
        else []
      ({ consecutiveFailures := 0, firstFailureTime := none,
         alertSent := false, lastStatus := some CheckStatus.UP },
       events)

/-- Run the tracker over a sequence of (status, time) check results,
collecting all emitted alert events in order. -/
def runTrace : DowntimeTracker → List (CheckStatus × Nat) → DowntimeTracker × List AlertEvent
  | tracker, [] => (tracker, [])
  | tracker, (s, now) :: rest =>
      let step := tick tracker s now
      let restRun := runTrace step.1 rest
      (restRun.1, step.2 ++ restRun.2)

/-- A pure-DOWN trace at the given times. -/
def downs (ts : List Nat) : List (CheckStatus × Nat) :=
  ts.map (fun t => (CheckStatus.DOWN, t))

/-- Number of downtime alerts in an event list. -/
def countDowntime (events : List AlertEvent) : Nat :=
  (events.filter fun e =>
    match e with
    | AlertEvent.downtime _ _ => true
    | AlertEvent.recovery _ => false).length

/-- Number of recovery alerts in an event list. -/
def countRecovery (events : List AlertEvent) : Nat :=
  (events.filter fun e =>
    match e with
    | AlertEvent.downtime _ _ => false
    | AlertEvent.recovery _ => true).length

theorem runTrace_append (tracker : DowntimeTracker)
    (l₁ l₂ : List (CheckStatus × Nat)) :
    runTrace tracker (l₁ ++ l₂) =
      ((runTrace (runTrace tracker l₁).1 l₂).1,
       (runTrace tracker l₁).2 ++ (runTrace (runTrace tracker l₁).1 l₂).2) := by
  induction l₁ generalizing tracker with
  | nil => simp [runTrace]
  | cons p rest ih =>
      obtain ⟨s, now⟩ := p
      simp [runTrace, ih]

theorem downs_run (ts : List Nat) :
    runTrace initialTracker (downs ts) =
      ({ consecutiveFailures := ts.length,
         firstFailureTime := ts.head?,
         alertSent := decide (ALERT_THRESHOLD_CHECKS ≤ ts.length),
         lastStatus := if ts.length = 0 then none else some CheckStatus.DOWN },
       if ALERT_THRESHOLD_CHECKS ≤ ts.length then
         [AlertEvent.downtime (roundMinutes (ts.getD 2 0 - ts.headD 0)) ts.head?]
       else []) := by
  induction ts using List.reverseRecOn with
  | nil => rfl
  | append_singleton ts x ih =>
      rcases ts with _ | ⟨a, ts⟩
      · rfl
      rcases ts with _ | ⟨b, ts⟩
      · rfl
      rcases ts with _ | ⟨c, ts⟩
      · rfl
      · have hsplit : downs ((a :: b :: c :: ts) ++ [x])
            = downs (a :: b :: c :: ts) ++ [(CheckStatus.DOWN, x)] := by
          simp [downs]
        rw [hsplit, runTrace_append, ih]
        have hle : ALERT_THRESHOLD_CHECKS ≤ (a :: b :: c :: ts).length := by
          simp only [ALERT_THRESHOLD_CHECKS, List.length_cons]
          omega
        have hle' : ALERT_THRESHOLD_CHECKS ≤ ((a :: b :: c :: ts) ++ [x]).length := by
          simp only [ALERT_THRESHOLD_CHECKS, List.length_append, List.length_cons]
          omega
        simp [runTrace, tick, hle, hle', List.getD, ALERT_THRESHOLD_CHECKS]

/-- Tracker invariant: a recorded first-failure time exactly when the
streak is non-empty, and an alert only ever sent at or above threshold. -/
def trackerInv (t : DowntimeTracker) : Prop :=
  (t.firstFailureTime ≠ none ↔ 1 ≤ t.consecutiveFailures)
  ∧ (t.alertSent = true → ALERT_THRESHOLD_CHECKS ≤ t.consecutiveFailures)

theorem trackerInv_tick (t : DowntimeTracker) (s : CheckStatus) (now : Nat)
    (h : trackerInv t) : trackerInv (tick t s now).1 := by
  obtain ⟨h1, h2⟩ := h
  cases s with
  | UP => simp [tick, trackerInv]
  | DOWN =>
      by_cases h0 : t.consecutiveFailures + 1 = 1
      · have hz : t.consecutiveFailures = 0 := by omega
        by_cases hc : ALERT_THRESHOLD_CHECKS ≤ t.consecutiveFailures + 1 ∧ t.alertSent = false
        · exact absurd hc.1 (by simp [ALERT_THRESHOLD_CHECKS, hz])
        · simp only [tick, if_neg hc, if_pos h0]
          refine ⟨by simp, fun hs => ?_⟩
          have h3 := h2 hs
          simp only [ALERT_THRESHOLD_CHECKS] at h3 ⊢
          omega
      · have hge : 1 ≤ t.consecutiveFailures := by omega
        have hfft : t.firstFailureTime ≠ none := h1.mpr hge
        by_cases hc : ALERT_THRESHOLD_CHECKS ≤ t.consecutiveFailures + 1 ∧ t.alertSent = false
        · simp only [tick, if_pos hc, if_neg h0]
          exact ⟨by simp [hfft], fun _ => hc.1⟩
        · simp only [tick, if_neg hc, if_neg h0]
          refine ⟨by simp [hfft], fun hs => ?_⟩
          have h3 := h2 hs
          simp only [ALERT_THRESHOLD_CHECKS] at h3 ⊢
          omega

theorem trackerInv_runTrace (trace : List (CheckStatus × Nat)) :
    ∀ t : DowntimeTracker, trackerInv t → trackerInv (runTrace t trace).1 := by
  induction trace with
  | nil => intro t h; simpa [runTrace] using h
  | cons p rest ih =>
      intro t h
      obtain ⟨s, now⟩ := p
      simpa [runTrace] using ih (tick t s now).1 (trackerInv_tick t s now h)

/-- C3: the prober is a total function of the probe outcome — it returns a
result for every outcome instead of throwing — and the result status is
UP if and only if an HTTP response was received whose status code lies in
[200, 500); codes at or above 500 and all transport-level failures yield
DOWN. -/
theorem C3_prober_classification (outcome : ProbeOutcome) (responseTime : Nat) :
    (checkServiceStatus outcome responseTime).status = CheckStatus.UP
      ↔ ∃ s text, outcome = ProbeOutcome.response s text ∧ 200 ≤ s ∧ s < 500 := by
  cases outcome with
  | response s text =>
      by_cases h : 200 ≤ s ∧ s < 500
      · simp [checkServiceStatus, h]
      · simp [checkServiceStatus, h]
  | transportError c m => simp [checkServiceStatus]

/-- C1: from the initial tracker state, a run of fewer than threshold-many
consecutive DOWN results emits no alerts at all; a run of at least
threshold-many consecutive DOWN results emits exactly one downtime alert
(so the tick reaching the threshold emits it, and further DOWN ticks add
none) and no recovery alert; the first UP after such a run emits exactly
one recovery alert and resets the consecutive-failure count to 0; and an
UP after a sub-threshold streak emits no alert. -/
theorem C1_tracker_alert_discipline (a b : List Nat) (u v : Nat)
    (ha : a.length < ALERT_THRESHOLD_CHECKS) (hb : ALERT_THRESHOLD_CHECKS ≤ b.length) :
    (runTrace initialTracker (downs a)).2 = []
  ∧ countDowntime (runTrace initialTracker (downs b)).2 = 1
  ∧ countRecovery (runTrace initialTracker (downs b)).2 = 0
  ∧ (tick (runTrace initialTracker (downs b)).1 CheckStatus.UP u).2
      = [AlertEvent.recovery (roundMinutes (u - b.headD 0))]
  ∧ (tick (runTrace initialTracker (downs b)).1 CheckStatus.UP u).1.consecutiveFailures = 0
  ∧ (tick (runTrace initialTracker (downs a)).1 CheckStatus.UP v).2 = [] := by
  have hna : ¬ ALERT_THRESHOLD_CHECKS ≤ a.length := by omega
  refine ⟨?_, ?_, ?_, ?_, ?_, ?_⟩
  · rw [downs_run]; simp [hna]
  · rw [downs_run]; simp [hb, countDowntime]
  · rw [downs_run]; simp [hb, countRecovery]
  · rw [downs_run]
    rcases b with _ | ⟨f, rest⟩
    · simp [ALERT_THRESHOLD_CHECKS] at hb
    · have hb' : ALERT_THRESHOLD_CHECKS ≤ rest.length + 1 := by simpa using hb
      simp [tick, hb']
  · simp [tick]
  · rw [downs_run]
    simp [tick, hna]

/-- Witness for C1 at a concrete sub-threshold run [10, 20] and a concrete
at-threshold run [10, 20, 30, 40] followed by an UP at time 100. -/
theorem C1_witness :
    (runTrace initialTracker (downs [10, 20])).2 = []
  ∧ countDowntime (runTrace initialTracker (downs [10, 20, 30, 40])).2 = 1
  ∧ countRecovery (runTrace initialTracker (downs [10, 20, 30, 40])).2 = 0
  ∧ (tick (runTrace initialTracker (downs [10, 20, 30, 40])).1 CheckStatus.UP 100).2
      = [AlertEvent.recovery (roundMinutes (100 - ([10, 20, 30, 40] : List Nat).headD 0))]
  ∧ (tick (runTrace initialTracker (downs [10, 20, 30, 40])).1
        CheckStatus.UP 100).1.consecutiveFailures = 0
  ∧ (tick (runTrace initialTracker (downs [10, 20])).1 CheckStatus.UP 50).2 = [] :=
  C1_tracker_alert_discipline [10, 20] [10, 20, 30, 40] 100 50 (by decide) (by decide)

/-- C9: for the scenario DOWN at t0, t1, t2 then UP at t3 with threshold 3,
the single downtime alert fires while processing the t2 check and carries
the elapsed time since the recorded first failure, rounded to whole
minutes (roundMinutes (t2 - t0), i.e. Math.round((t2 - t0)/1000/60)),
together with the first-failure timestamp t0; the single recovery alert
at t3 carries roundMinutes (t3 - t0). -/
theorem C9_alert_duration_minutes (t0 t1 t2 t3 : Nat)
    (_h01 : t0 ≤ t1) (_h12 : t1 ≤ t2) (_h23 : t2 ≤ t3) :
    runTrace initialTracker
        [(CheckStatus.DOWN, t0), (CheckStatus.DOWN, t1),
         (CheckStatus.DOWN, t2), (CheckStatus.UP, t3)]
      = ({ consecutiveFailures := 0, firstFailureTime := none, alertSent := false,
           lastStatus := some CheckStatus.UP },
         [AlertEvent.downtime (roundMinutes (t2 - t0)) (some t0),
          AlertEvent.recovery (roundMinutes (t3 - t0))]) := by
  rfl

/-- Witness for C9 at t0 = 0, t1 = 60000, t2 = 120000, t3 = 150000. -/
theorem C9_witness :
    runTrace initialTracker
        [(CheckStatus.DOWN, 0), (CheckStatus.DOWN, 60000),
         (CheckStatus.DOWN, 120000), (CheckStatus.UP, 150000)]
      = ({ consecutiveFailures := 0, firstFailureTime := none, alertSent := false,
           lastStatus := some CheckStatus.UP },
         [AlertEvent.downtime (roundMinutes (120000 - 0)) (some 0),
          AlertEvent.recovery (roundMinutes (150000 - 0))]) :=
  C9_alert_duration_minutes 0 60000 120000 150000 (by decide) (by decide) (by decide)

/-- C10: the tracker invariant — firstFailureTime is non-null iff the
consecutive-failure count is at least 1, and alertSent implies the count
is at least the alert threshold — is preserved by every tick transition,
and holds in every state reachable from the initial tracker state. -/
theorem C10_tracker_invariant :
    (∀ (t : DowntimeTracker) (s : CheckStatus) (now : Nat),
        trackerInv t → trackerInv (tick t s now).1)
  ∧ ∀ trace : List (CheckStatus × Nat), trackerInv (runTrace initialTracker trace).1 :=
  ⟨fun t s now h => trackerInv_tick t s now h,
   fun trace => trackerInv_runTrace trace initialTracker (by simp [trackerInv, initialTracker])⟩

/-- Witness for C10 at the initial tracker and a concrete DOWN tick. -/
theorem C10_witness :
    trackerInv initialTracker
  ∧ trackerInv (tick initialTracker CheckStatus.DOWN 0).1 :=
  ⟨by simp [trackerInv, initialTracker],
   C10_tracker_invariant.1 initialTracker CheckStatus.DOWN 0
     (by simp [trackerInv, initialTracker])⟩

/-- One row of the `checks` table as selected by the day-detail query
(`src/src/app/api/day-detail/route.ts` lines 56-75): status,
response_time, checked_at, error_message, http_code.  `checked_at` is
epoch milliseconds; the query returns rows ordered by `checked_at`
ascending. -/
structure CheckRec where
  status : CheckStatus
  checked_at : Nat
  response_time : Option Nat
  error_message : Option String
  http_code : Option Nat
deriving DecidableEq, Repr, Inhabited

/-- The `checks.find((check, idx) => idx > checks.indexOf(c) && check.status === "UP")`
scan of the incident computation (day-detail route lines 154-156).  Each
row is a distinct object, so `checks.indexOf(c)` is exactly the position
`i` of the current down record, and the scan returns the first UP record
strictly after position `i`. -/
def nextUpAfter (checks : List CheckRec) (i : Nat) : Option CheckRec :=
  (checks.drop (i + 1)).find? (fun c => c.status == CheckStatus.UP)

/-- Duration formatting from the day-detail route lines 166-174:
totalSeconds = floor(ms/1000), minutes = floor(totalSeconds/60),
seconds = totalSeconds mod 60; "Xm Ys" when minutes > 0, else "Ys". -/
def formatIncidentDuration (durationMs : Nat) : String :=
  let totalSeconds := durationMs / 1000
  let minutes := totalSeconds / 60
  let seconds := totalSeconds % 60
  if 0 < minutes then toString minutes ++ "m " ++ toString seconds ++ "s"
  else toString seconds ++ "s"

/-- The duration string computed for the DOWN record at position `i` of
the ordered check list (day-detail route lines 152-183).  When no later
UP exists, the source compares `c.checked_at === lastCheck.checked_at`;
the two `Date` objects are referentially equal exactly when `c` is the
last row itself, i.e. when `i` is the last position. -/
def incidentDuration (checks : List CheckRec) (i : Nat) : String :=
  match nextUpAfter checks i with
  | some u => formatIncidentDuration (u.checked_at - (checks.getD i default).checked_at)
  | none => if i = checks.length - 1 then "Ongoing" else "~1m"

theorem find?_eq_some_first {α : Type} (p : α → Bool) :
    ∀ (l : List α) (j : Nat) (u : α),
      l[j]? = some u → p u = true →
      (∀ k c, k < j → l[k]? = some c → p c = false) →
      l.find? p = some u := by
  intro l
  induction l with
  | nil => intro j u hj _ _; simp at hj
  | cons a tl ih =>
      intro j u hj hu hmin
      cases j with
      | zero =>
          rw [List.getElem?_cons_zero] at hj
          obtain rfl : a = u := by injection hj
          exact List.find?_cons_of_pos tl hu
      | succ j' =>
          have hpa : p a = false := hmin 0 a (Nat.zero_lt_succ _) List.getElem?_cons_zero
          rw [List.find?_cons_of_neg tl (by simp [hpa])]
          refine ih j' u (by simpa using hj) hu ?_
          intro k c hk hc
          exact hmin (k + 1) c (by omega) (by simpa using hc)

/-- C2: for a DOWN record at position i of the ordered day-detail check
list: if the first later UP record is u, the incident duration is
u.checked_at - down.checked_at formatted as "Xm Ys" with the minutes
component omitted when zero; if no later UP exists, the duration is
"Ongoing" when the DOWN record is the last check of the window and "~1m"
otherwise. -/
theorem C2_incident_duration (checks : List CheckRec) (i : Nat) (ci : CheckRec)
    (hci : checks[i]? = some ci) (_hdown : ci.status = CheckStatus.DOWN) :
    (∀ j u, i < j → checks[j]? = some u → u.status = CheckStatus.UP →
        (∀ k c, i < k → k < j → checks[k]? = some c → c.status ≠ CheckStatus.UP) →
        incidentDuration checks i = formatIncidentDuration (u.checked_at - ci.checked_at))
  ∧ ((∀ k c, i < k → checks[k]? = some c → c.status ≠ CheckStatus.UP) →
        (i = checks.length - 1 → incidentDuration checks i = "Ongoing")
      ∧ (i ≠ checks.length - 1 → incidentDuration checks i = "~1m"))
  ∧ (∀ d : Nat, formatIncidentDuration d =
        if d / 1000 / 60 = 0 then toString (d / 1000 % 60) ++ "s"
        else toString (d / 1000 / 60) ++ "m " ++ toString (d / 1000 % 60) ++ "s")
  ∧ formatIncidentDuration 45000 = "45s"
  ∧ formatIncidentDuration 125000 = "2m 5s" := by
  refine ⟨?_, ?_, ?_, by rfl, by rfl⟩
  · intro j u hij hj hu hmin
    have hfound : nextUpAfter checks i = some u := by
      unfold nextUpAfter
      refine find?_eq_some_first _ (checks.drop (i + 1)) (j - (i + 1)) u ?_ (by simp [hu]) ?_
      · rw [List.getElem?_drop]
        rw [show i + 1 + (j - (i + 1)) = j by omega]
        exact hj
      · intro k c hk hc
        rw [List.getElem?_drop] at hc
        have hne : c.status ≠ CheckStatus.UP :=
          hmin (i + 1 + k) c (by omega) (by omega) hc
        simp [hne]
    simp only [incidentDuration, hfound]
    rw [List.getD_eq_getElem?_getD, hci]
    rfl
  · intro hafter
    have hnone : nextUpAfter checks i = none := by
      unfold nextUpAfter
      rw [List.find?_eq_none]
      intro x hx
      rw [List.mem_iff_getElem?] at hx
      obtain ⟨m, hm⟩ := hx
      rw [List.getElem?_drop] at hm
      have hne := hafter (i + 1 + m) x (by omega) hm
      simp [hne]
    refine ⟨fun hlast => ?_, fun hlast => ?_⟩
    · simp only [incidentDuration, hnone]
      simp [hlast]
    · simp only [incidentDuration, hnone]
      simp [hlast]
  · intro d
    by_cases h : d / 1000 / 60 = 0
    · simp [formatIncidentDuration, h]
    · have h' : 0 < d / 1000 / 60 := Nat.pos_of_ne_zero h
      simp [formatIncidentDuration, h, h']

/-- Concrete down record at time 1000 used by the C2 witness. -/
def recDown : CheckRec :=
  { status := CheckStatus.DOWN, checked_at := 1000, response_time := some 5,
    error_message := some "HTTP 500: Internal Server Error", http_code := some 500 }

/-- Concrete up record at time 46000 used by the C2 witness. -/
def recUp : CheckRec :=
  { status := CheckStatus.UP, checked_at := 46000, response_time := some 10,
    error_message := none, http_code := some 200 }

/-- Witness for C2: a DOWN at 1000 followed by an UP at 46000 gives the
45-second duration with the minutes component omitted. -/
theorem C2_witness :
    incidentDuration [recDown, recUp] 0
      = formatIncidentDuration (recUp.checked_at - recDown.checked_at) :=
  (C2_incident_duration [recDown, recUp] 0 recDown (by rfl) (by rfl)).1 1 recUp
    (by decide) (by rfl) (by rfl)
    (fun k c hk hkj _ => absurd hk (by omega))

/-- Epoch milliseconds of `Date.UTC(year, month - 1, day)` — UTC midnight
of the given Gregorian calendar date — for dates from 1970-01-01 on,
computed with the standard civil-from-days era arithmetic (day-detail
route line 33). -/
def utcMidnightMs (year month day : Nat) : Nat :=
  let y := if month ≤ 2 then year - 1 else year
  let era := y / 400
  let yoe := y % 400
  let mp := (month + 9) % 12
  let doy := (153 * mp + 2) / 5 + day - 1
  let doe := yoe * 365 + yoe / 4 - yoe / 100 + doy
  (era * 146097 + doe - 719468) * 86400000

/-- IST offset constant from the day-detail route line 36:
5.5 * 60 * 60 * 1000 = 19800000 ms. -/
def IST_OFFSET_MS : Nat := 19800000

/-- Query-window start (day-detail route line 40): IST midnight of the
requested date, expressed in UTC epoch ms. -/
def startOfDay (year month day : Nat) : Nat :=
  utcMidnightMs year month day - IST_OFFSET_MS

/-- Query-window end (day-detail route line 41): start + 24h - 1 ms. -/
def endOfDay (year month day : Nat) : Nat :=
  startOfDay year month day + 24 * 60 * 60 * 1000 - 1

/-- Start of IST-hour bucket `h` relative to the window start
(day-detail route line 110). -/
def istHourStart (start h : Nat) : Nat := start + h * (60 * 60 * 1000)

/-- End of IST-hour bucket `h` (day-detail route line 111). -/
def istHourEnd (start h : Nat) : Nat := istHourStart start h + 60 * 60 * 1000 - 1

/-- Membership of a check timestamp in bucket `h`, as tested by the
hourly filter (day-detail route lines 113-116). -/
def inHourBucket (start h t : Nat) : Prop :=
  istHourStart start h ≤ t ∧ t ≤ istHourEnd start h

/-- C5: the query window for calendar date (year, month, day) in the
fixed +5:30 reporting timezone is [utcMidnight - 5.5h, start + 24h - 1ms]
in UTC, computed from the explicit fixed offset constant; and every
timestamp inside the window lies in exactly one of the 24 tz-hour
buckets (bucket h spans [start + h hours, start + (h+1) hours - 1 ms]),
never in an adjacent bucket. -/
theorem C5_ist_window_bucketing (year month day t : Nat)
    (hoff : IST_OFFSET_MS ≤ utcMidnightMs year month day)
    (h1 : startOfDay year month day ≤ t) (h2 : t ≤ endOfDay year month day) :
    startOfDay year month day + IST_OFFSET_MS = utcMidnightMs year month day
  ∧ endOfDay year month day = startOfDay year month day + 24 * 60 * 60 * 1000 - 1
  ∧ ∃! h : Nat, h < 24 ∧ inHourBucket (startOfDay year month day) h t := by
  set s := startOfDay year month day with hs
  refine ⟨?_, rfl, ?_⟩
  · simp only [hs, startOfDay]
    omega
  · refine ⟨(t - s) / 3600000, ⟨?_, ?_, ?_⟩, ?_⟩
    · simp only [endOfDay] at h2
      omega
    · simp only [inHourBucket, istHourStart]
      omega
    · simp only [inHourBucket, istHourStart, istHourEnd, endOfDay] at h2 ⊢
      omega
    · intro h' hh'
      obtain ⟨hlt, hlo, hhi⟩ := hh'
      simp only [inHourBucket, istHourStart, istHourEnd] at hlo hhi
      omega

/-- Witness for C5 at 2025-10-12 IST and a timestamp 90 minutes into the
window (which straddles the UTC date boundary: IST hour 1 is
19:30-20:30 UTC of the previous day). -/
theorem C5_witness :
    startOfDay 2025 10 12 + IST_OFFSET_MS = utcMidnightMs 2025 10 12
  ∧ endOfDay 2025 10 12 = startOfDay 2025 10 12 + 24 * 60 * 60 * 1000 - 1
  ∧ ∃! h : Nat, h < 24 ∧ inHourBucket (startOfDay 2025 10 12) h (startOfDay 2025 10 12 + 5400000) :=
  C5_ist_window_bucketing 2025 10 12 (startOfDay 2025 10 12 + 5400000)
    (by decide) (by decide) (by decide)

/-- One row of the `dailyStats` GROUP-BY-day aggregation in the status
rollup (src/unnamed/part_004 lines 51-96). -/
structure DailyStat where
  total_checks : Nat
  up_checks : Nat
  down_checks : Nat
deriving DecidableEq, Repr

/-- The reduce over daily rows computing the period's total check count
(src/unnamed/part_004 lines 99-102). -/
def totalChecksOf (dailyStats : List DailyStat) : Nat :=
  dailyStats.foldl (fun sum day => sum + day.total_checks) 0

/-- The reduce over daily rows computing the period's total up-check
count (src/unnamed/part_004 lines 103-106). -/
def totalUpChecksOf (dailyStats : List DailyStat) : Nat :=
  dailyStats.foldl (fun sum day => sum + day.up_checks) 0

/-- The overall uptime value of the status rollup
(src/unnamed/part_004 lines 107-109), as the exact rational the source
formats with toFixed(1); the zero-row branch produces the string "0.0",
modelled as the value 0. -/
def overallUptime (dailyStats : List DailyStat) : ℚ :=
  if 0 < totalChecksOf dailyStats then
    (totalUpChecksOf dailyStats : ℚ) / (totalChecksOf dailyStats : ℚ) * 100
  else 0

/-- Per-day uptime percentage as placed in dailyData
(src/unnamed/part_004 lines 128-130). -/
def dailyUptimePercent (day : DailyStat) : ℚ :=
  if 0 < day.total_checks then (day.up_checks : ℚ) / (day.total_checks : ℚ) * 100
  else 0

/-- Modelled from the spec: the "simple average of per-day uptime
percentages" that the spec says the overall uptime must NOT equal —
this computation appears nowhere in the source and is stated here only
as the foil for claim C6. -/
def specAvgDailyPercent (dailyStats : List DailyStat) : ℚ :=
  (dailyStats.map dailyUptimePercent).sum / (dailyStats.length : ℚ)

theorem totalChecksOf_eq_sum (dailyStats : List DailyStat) :
    totalChecksOf dailyStats = (dailyStats.map DailyStat.total_checks).sum := by
  have key : ∀ (l : List DailyStat) (n : Nat),
      l.foldl (fun sum day => sum + day.total_checks) n
        = n + (l.map DailyStat.total_checks).sum := by
    intro l
    induction l with
    | nil => intro n; simp
    | cons d rest ih => intro n; simp [ih]; omega
  simpa using key dailyStats 0

theorem totalUpChecksOf_eq_sum (dailyStats : List DailyStat) :
    totalUpChecksOf dailyStats = (dailyStats.map DailyStat.up_checks).sum := by
  have key : ∀ (l : List DailyStat) (n : Nat),
      l.foldl (fun sum day => sum + day.up_checks) n
        = n + (l.map DailyStat.up_checks).sum := by
    intro l
    induction l with
    | nil => intro n; simp
    | cons d rest ih => intro n; simp [ih]; omega
  simpa using key dailyStats 0

/-- Counterexample to C6 as stated: for the two days (1 check, 1 up) and
(2 checks, 2 up) the daily check counts differ, yet the sum-based
overall uptime and the simple average of per-day percentages are both
exactly 100, so "the two differ whenever daily check counts differ" is
false. -/
theorem C6_counterexample :
    (DailyStat.mk 1 1 0).total_checks ≠ (DailyStat.mk 2 2 0).total_checks
  ∧ overallUptime [DailyStat.mk 1 1 0, DailyStat.mk 2 2 0]
      = specAvgDailyPercent [DailyStat.mk 1 1 0, DailyStat.mk 2 2 0] := by
  constructor
  · decide
  · norm_num [overallUptime, specAvgDailyPercent, totalChecksOf, totalUpChecksOf,
      dailyUptimePercent]

/-- C6 (amended): the overall uptime of a multi-day range is
sum(daily up) / sum(daily total) * 100 across the days (exactly, before
the one-decimal display rounding), and it is not computed as the simple
average of per-day percentages — there exist ranges with differing
daily check counts on which the two disagree (e.g. (2 checks, 1 up) and
(3 checks, 3 up): 80 versus 75) — though the two can coincide when every
day has the same uptime ratio. -/
theorem C6_overall_uptime (dailyStats : List DailyStat)
    (hpos : 0 < totalChecksOf dailyStats) :
    overallUptime dailyStats * ((dailyStats.map DailyStat.total_checks).sum : ℚ)
      = ((dailyStats.map DailyStat.up_checks).sum : ℚ) * 100
  ∧ overallUptime [DailyStat.mk 2 1 1, DailyStat.mk 3 3 0]
      ≠ specAvgDailyPercent [DailyStat.mk 2 1 1, DailyStat.mk 3 3 0] := by
  constructor
  · rw [← totalChecksOf_eq_sum, ← totalUpChecksOf_eq_sum]
    rw [overallUptime, if_pos hpos]
    have hne : (totalChecksOf dailyStats : ℚ) ≠ 0 := by
      exact_mod_cast Nat.pos_iff_ne_zero.mp hpos
    field_simp
  · norm_num [overallUptime, specAvgDailyPercent, totalChecksOf, totalUpChecksOf,
      dailyUptimePercent]

/-- Witness for C6 (amended) on the concrete two-day range
(2 checks, 1 up) and (3 checks, 3 up). -/
theorem C6_witness :
    overallUptime [DailyStat.mk 2 1 1, DailyStat.mk 3 3 0]
        * (([DailyStat.mk 2 1 1, DailyStat.mk 3 3 0].map DailyStat.total_checks).sum : ℚ)
      = (([DailyStat.mk 2 1 1, DailyStat.mk 3 3 0].map DailyStat.up_checks).sum : ℚ) * 100
  ∧ overallUptime [DailyStat.mk 2 1 1, DailyStat.mk 3 3 0]
      ≠ specAvgDailyPercent [DailyStat.mk 2 1 1, DailyStat.mk 3 3 0] :=
  C6_overall_uptime [DailyStat.mk 2 1 1, DailyStat.mk 3 3 0] (by decide)

/-- Shape of the day-detail response relevant to the no-data policy:
either the explicit hasData:false body (day-detail route lines 77-82) or
the hasData:true body with its summary statistics (lines 208-236,
restricted to the count and uptime fields). -/
inductive DayDetailResponse where
  | noData (message : String)
  | withData (totalChecks upChecks downChecks : Nat) (uptimePercent : ℚ)
deriving DecidableEq, Repr

/-- The day-detail summary computation (day-detail route lines 77-87):
the empty window returns the explicit no-data body; otherwise counts and
the uptime percentage (the exact rational the source formats with
toFixed(2)). -/
def dayDetailSummary (checks : List CheckRec) : DayDetailResponse :=
  if checks.length = 0 then
    DayDetailResponse.noData "No monitoring data available for this day"
  else
    let upChecks := (checks.filter fun c => c.status == CheckStatus.UP).length
    let downChecks := (checks.filter fun c => c.status == CheckStatus.DOWN).length
    DayDetailResponse.withData checks.length upChecks downChecks
      ((upChecks : ℚ) / (checks.length : ℚ) * 100)

/-- JavaScript Math.round on a nonnegative rational: floor(x + 1/2). -/
def jsRound (x : ℚ) : ℤ := ⌊x + 1 / 2⌋

/-- Embedding of `calculateUptime` (src/unnamed/part_006 lines 51-56):
an empty check list yields 100; otherwise up/total*100 rounded to two
decimals via Math.round(x * 100) / 100. -/
def calculateUptime (statuses : List CheckStatus) : ℚ :=
  if statuses.length = 0 then 100
  else
    let upChecks := (statuses.filter fun s => s == CheckStatus.UP).length
    (jsRound ((upChecks : ℚ) / (statuses.length : ℚ) * 100 * 100) : ℚ) / 100

/-- Counterexample to C7 as stated: the status rollup reports a window
with zero check records with uptime value 0 (the string "0.0"), exactly
the value an all-DOWN window gets, and `calculateUptime` maps an empty
window to the plain number 100 rather than a distinct no-data result —
so not every zero-record query yields a result distinct from numeric
uptime values. -/
theorem C7_counterexample :
    overallUptime [] = overallUptime [DailyStat.mk 5 0 5]
  ∧ calculateUptime [] = 100 := by
  constructor
  · norm_num [overallUptime, totalChecksOf, totalUpChecksOf]
  · norm_num [calculateUptime]

/-- C7 (amended): the day-detail query does implement the no-data policy
— it returns the explicit hasData:false result exactly when the window
has zero check records, and that result is distinct from every
data-bearing result — but the status rollup reports a zero-record window
as uptime 0.0, identical to an all-DOWN window, and `calculateUptime`
returns the numeric value 100 for an empty window, so those two paths do
conflate no-data with numeric uptime. -/
theorem C7_no_data_policy :
    (∀ checks : List CheckRec,
        dayDetailSummary checks
            = DayDetailResponse.noData "No monitoring data available for this day"
          ↔ checks = [])
  ∧ (∀ (m : String) (t u d : Nat) (p : ℚ),
        DayDetailResponse.noData m ≠ DayDetailResponse.withData t u d p)
  ∧ overallUptime [] = overallUptime [DailyStat.mk 5 0 5]
  ∧ calculateUptime [] = 100 := by
  refine ⟨?_, ?_, ?_, ?_⟩
  · intro checks
    rcases checks with _ | ⟨c, rest⟩
    · simp [dayDetailSummary]
    · simp [dayDetailSummary]
  · intro m t u d p h
    exact DayDetailResponse.noConfusion h
  · norm_num [overallUptime, totalChecksOf, totalUpChecksOf]
  · norm_num [calculateUptime]

/-- Environment for processing one endpoint in a cron cycle: its
registry fields plus the behaviour of its probe (abstracted outcome and
measured time) and of the `prisma.checks.create` persistence write
(`persistOk` false makes the write throw with `persistError`).  Alert
dispatch is omitted here: `sendSlackAlert` catches and swallows its own
errors, so it cannot alter the cycle's control flow. -/
structure EndpointEnv where
  name : String
  url : String
  outcome : ProbeOutcome
  responseTime : Nat
  persistOk : Bool
  persistError : String
deriving DecidableEq, Repr

/-- The per-endpoint loop of the cron monitoring cycle
(src/unnamed/part_001 lines 91-196) with its up/down counters and
results accumulator.  The whole loop runs inside the handler's single
try/catch (lines 41 and 215-226): a throw from the persistence write
aborts the loop and the handler returns the error response, modelled as
`Except.error`; a completed loop returns the summary counts and the list
of processed endpoint names. -/
def runCycleFrom : List EndpointEnv → Nat → Nat → List String →
    Except String (Nat × Nat × List String)
  | [], upCount, downCount, processed => Except.ok (upCount, downCount, processed.reverse)
  | ep :: rest, upCount, downCount, processed =>
      let result := checkServiceStatus ep.outcome ep.responseTime
      if ep.persistOk = false then Except.error ep.persistError
      else if result.status = CheckStatus.UP then
        runCycleFrom rest (upCount + 1) downCount (ep.name :: processed)
      else
        runCycleFrom rest upCount (downCount + 1) (ep.name :: processed)

/-- One cron cycle over the endpoint list, from fresh counters. -/
def runCycle (endpoints : List EndpointEnv) : Except String (Nat × Nat × List String) :=
  runCycleFrom endpoints 0 0 []

/-- Number of endpoints of a cycle whose probe classifies UP. -/
def cycleUp (endpoints : List EndpointEnv) : Nat :=
  (endpoints.filter fun ep =>
    (checkServiceStatus ep.outcome ep.responseTime).status == CheckStatus.UP).length

/-- Number of endpoints of a cycle whose probe classifies DOWN. -/
def cycleDown (endpoints : List EndpointEnv) : Nat :=
  (endpoints.filter fun ep =>
    (checkServiceStatus ep.outcome ep.responseTime).status == CheckStatus.DOWN).length

/-- First endpoint of the C4 counterexample: probes fine and persists. -/
def epGood : EndpointEnv :=
  { name := "a", url := "https://a.example", outcome := ProbeOutcome.response 200 "OK",
    responseTime := 10, persistOk := true, persistError := "" }

/-- Second endpoint of the C4 counterexample: its persistence write
throws. -/
def epBad : EndpointEnv :=
  { name := "b", url := "https://b.example", outcome := ProbeOutcome.response 200 "OK",
    responseTime := 12, persistOk := false, persistError := "db write failed" }

/-- Third endpoint of the C4 counterexample: healthy, but never reached. -/
def epAfter : EndpointEnv :=
  { name := "c", url := "https://c.example", outcome := ProbeOutcome.response 204 "No Content",
    responseTime := 9, persistOk := true, persistError := "" }

/-- Counterexample to C4 as stated: with endpoints [a, b, c] where b's
persistence write throws, the cycle aborts with the propagated error —
no cycle summary is produced at all, and endpoint c is neither probed
nor persisted nor reported. -/
theorem C4_counterexample :
    runCycle [epGood, epBad, epAfter] = Except.error "db write failed"
  ∧ ¬ ∃ summary, runCycle [epGood, epBad, epAfter] = Except.ok summary := by
  refine ⟨rfl, ?_⟩
  rintro ⟨summary, h⟩
  rw [show runCycle [epGood, epBad, epAfter] = Except.error "db write failed" from rfl] at h
  exact Except.noConfusion h

theorem runCycleFrom_all_ok (endpoints : List EndpointEnv) :
    ∀ upCount downCount processed,
      (∀ ep ∈ endpoints, ep.persistOk = true) →
      runCycleFrom endpoints upCount downCount processed
        = Except.ok (upCount + cycleUp endpoints, downCount + cycleDown endpoints,
            processed.reverse ++ endpoints.map EndpointEnv.name) := by
  induction endpoints with
  | nil => intro upCount downCount processed _; simp [runCycleFrom, cycleUp, cycleDown]
  | cons ep rest ih =>
      intro upCount downCount processed hok
      have hep : ep.persistOk = true := hok ep (List.mem_cons_self ep rest)
      have hrest : ∀ e ∈ rest, e.persistOk = true :=
        fun e he => hok e (List.mem_cons_of_mem ep he)
      simp only [runCycleFrom]
      rw [if_neg (by simp [hep])]
      rcases hstat : (checkServiceStatus ep.outcome ep.responseTime).status with _ | _
      · -- UP
        rw [if_pos rfl, ih (upCount + 1) downCount (ep.name :: processed) hrest]
        simp [cycleUp, cycleDown, hstat]
        omega
      · -- DOWN
        rw [if_neg (by decide), ih upCount (downCount + 1) (ep.name :: processed) hrest]
        simp [cycleUp, cycleDown, hstat]
        omega

theorem runCycleFrom_abort (pre : List EndpointEnv) (bad : EndpointEnv)
    (post : List EndpointEnv) :
    ∀ upCount downCount processed,
      (∀ ep ∈ pre, ep.persistOk = true) → bad.persistOk = false →
      runCycleFrom (pre ++ bad :: post) upCount downCount processed
        = Except.error bad.persistError := by
  induction pre with
  | nil =>
      intro upCount downCount processed _ hbad
      simp [runCycleFrom, hbad]
  | cons ep rest ih =>
      intro upCount downCount processed hok hbad
      have hep : ep.persistOk = true := hok ep (List.mem_cons_self ep rest)
      have hrest : ∀ e ∈ rest, e.persistOk = true :=
        fun e he => hok e (List.mem_cons_of_mem ep he)
      simp only [List.cons_append, runCycleFrom]
      rw [if_neg (by simp [hep])]
      rcases hstat : (checkServiceStatus ep.outcome ep.responseTime).status with _ | _
      · rw [if_pos rfl]
        exact ih (upCount + 1) downCount (ep.name :: processed) hrest hbad
      · rw [if_neg (by decide)]
        exact ih upCount (downCount + 1) (ep.name :: processed) hrest hbad

/-- C4 (amended): a probe-level failure never aborts a cycle — the
prober is total and a DOWN result is just counted — and a cycle in which
every persistence write succeeds processes every endpoint and reports
the full summary; but a persistence failure while processing one
endpoint aborts the whole cycle: the endpoints after it are not probed,
persisted or reported, and the error propagates as a cycle-level error
response instead of a per-endpoint entry in the summary. -/
theorem C4_cycle_abort (endpoints pre post : List EndpointEnv) (bad : EndpointEnv)
    (hall : ∀ ep ∈ endpoints, ep.persistOk = true)
    (hpre : ∀ ep ∈ pre, ep.persistOk = true) (hbad : bad.persistOk = false) :
    runCycle endpoints
        = Except.ok (cycleUp endpoints, cycleDown endpoints,
            endpoints.map EndpointEnv.name)
  ∧ runCycle (pre ++ bad :: post) = Except.error bad.persistError := by
  constructor
  · rw [runCycle, runCycleFrom_all_ok endpoints 0 0 [] hall]
    simp
  · exact runCycleFrom_abort pre bad post 0 0 [] hpre hbad

/-- Witness for C4 (amended): a fully-persisting two-endpoint cycle
(one UP at 200, one DOWN at 503) completes with its summary, while the
[a, b-failing, c] cycle aborts with b's error. -/
theorem C4_witness :
    runCycle [epGood,
        { name := "d", url := "https://d.example",
          outcome := ProbeOutcome.response 503 "Service Unavailable",
          responseTime := 30, persistOk := true, persistError := "" }]
        = Except.ok (cycleUp [epGood,
            { name := "d", url := "https://d.example",
              outcome := ProbeOutcome.response 503 "Service Unavailable",
              responseTime := 30, persistOk := true, persistError := "" }],
          cycleDown [epGood,
            { name := "d", url := "https://d.example",
              outcome := ProbeOutcome.response 503 "Service Unavailable",
              responseTime := 30, persistOk := true, persistError := "" }],
          [epGood,
            { name := "d", url := "https://d.example",
              outcome := ProbeOutcome.response 503 "Service Unavailable",
              responseTime := 30, persistOk := true, persistError := "" }].map
            EndpointEnv.name)
  ∧ runCycle ([epGood] ++ epBad :: [epAfter]) = Except.error epBad.persistError :=
  C4_cycle_abort
    [epGood,
      { name := "d", url := "https://d.example",
        outcome := ProbeOutcome.response 503 "Service Unavailable",
        responseTime := 30, persistOk := true, persistError := "" }]
    [epGood] [epAfter] epBad (by decide) (by decide) (by decide)

/-- Process-wide scheduler state (`src/src/lib/scheduler.ts`): the
module-level `isSchedulerRunning` flag plus the number of cron tasks
registered so far by `cron.schedule` (the source never unregisters
one — there is no stop operation). -/
structure SchedulerState where
  isSchedulerRunning : Bool
  activeTasks : Nat
deriving DecidableEq, Repr

/-- The state at module load: flag false, no task registered
(`let isSchedulerRunning = false`). -/
def initialSchedulerState : SchedulerState :=
  { isSchedulerRunning := false, activeTasks := 0 }

/-- Embedding of `startMonitoringScheduler` (scheduler.ts lines 10-50):
returns immediately when the flag is set; otherwise registers one cron
task and sets the flag. -/
def startMonitoringScheduler (s : SchedulerState) : SchedulerState :=
  if s.isSchedulerRunning then s
  else { isSchedulerRunning := true, activeTasks := s.activeTasks + 1 }

/-- n sequential invocations of the start routine. -/
def startN : Nat → SchedulerState → SchedulerState
  | 0, s => s
  | n + 1, s => startMonitoringScheduler (startN n s)

theorem startN_stopped (n : Nat) (hn : 1 ≤ n) :
    startN n initialSchedulerState
      = { isSchedulerRunning := true, activeTasks := 1 } := by
  induction n with
  | zero => omega
  | succ m ih =>
      rcases Nat.eq_zero_or_pos m with hm | hm
      · subst hm; rfl
      · simp [startN, ih hm, startMonitoringScheduler]

/-- C8: starting the scheduler is idempotent — invoking the start
routine in any state whose running flag is set changes nothing (no
second task is registered) — and any positive number of sequential
invocations from the stopped initial state leaves exactly one active
scheduled task. -/
theorem C8_scheduler_idempotent_start (s : SchedulerState) (n : Nat)
    (hs : s.isSchedulerRunning = true) (hn : 1 ≤ n) :
    startMonitoringScheduler s = s
  ∧ (startN n initialSchedulerState).activeTasks = 1
  ∧ (startN n initialSchedulerState).isSchedulerRunning = true := by
  refine ⟨by simp [startMonitoringScheduler, hs], ?_, ?_⟩
  · rw [startN_stopped n hn]
  · rw [startN_stopped n hn]

/-- Witness for C8 at a running one-task state and five invocations. -/
theorem C8_witness :
    startMonitoringScheduler { isSchedulerRunning := true, activeTasks := 1 }
        = { isSchedulerRunning := true, activeTasks := 1 }
  ∧ (startN 5 initialSchedulerState).activeTasks = 1
  ∧ (startN 5 initialSchedulerState).isSchedulerRunning = true :=
  C8_scheduler_idempotent_start { isSchedulerRunning := true, activeTasks := 1 } 5
    (by decide) (by decide)

end Loft
